import Mathlib

/-!
Shallow embedding of the prompt-forge core (prompt loader, cross-reference
validator, prompt cache, template renderer and helper library), together
with theorems checking the specification's claims against the code.

Sources embedded:
- src/server/prompt-validator.ts (performCustomValidations,
  extractTemplateVariables, validatePromptData)
- src/server/prompt-loader.ts (loadPrompts, getPrompt, searchPrompts,
  getLoaderStats, clearCache, the module-level caches)
- src/server/template-engine.ts (helper library, validateVariables,
  validateVariableType, renderPrompt)

JavaScript machine details: strings are treated at code-point granularity
(all concrete inputs are ASCII); JS numbers are modelled as integers plus a
distinguished NaN, which covers every number the embedded code paths
inspect.
-/

/-- JavaScript runtime value as the loader, the schema validator and the
template engine see it: the decoded form of a YAML document (a dynamic
tree of null/bool/number/string/sequence/mapping) and the dynamic type of
a supplied variable or of an example entry. -/
inductive Value where
  | undef : Value
  | null : Value
  | bool (b : Bool) : Value
  | num (n : Int) : Value
  | nan : Value
  | str (s : String) : Value
  | arr (xs : List Value) : Value
  | obj (fields : List (String × Value)) : Value

/-- Variable type tag (the `type` field of a variable declaration). -/
inductive VarType where
  | text : VarType
  | number : VarType
  | boolean : VarType
  | enum : VarType
  | array : VarType
deriving DecidableEq

/-- A declared template variable: the output shape of
`PromptVariableSchema` in `src/types/prompt.ts`, with the schema's
defaults already applied (`required` defaults to false). -/
structure PromptVariable where
  name : String
  type : VarType
  required : Bool := false
  description : Option String := none
  default : Option Value := none
  values : Option (List String) := none
  suggestions : Option (List String) := none
  max_length : Option Int := none
  min : Option Int := none
  max : Option Int := none

/-- An example attached to a definition: a title plus a mapping from
variable name to an arbitrary value. -/
structure PromptExample where
  title : String
  «variables» : List (String × Value)
  expected_output : Option String := none

/-- The structurally valid form of one definition file: the output shape
of `PromptFileSchema` in `src/types/prompt.ts`. The schema's `.default`
rules make `tags`, `variables` and `examples` always present after a
successful parse, so they are plain lists here (the validator's
`data.variables || []` reads are the identity on arrays, since every JS
array is truthy). -/
structure PromptFile where
  name : String
  title : String
  description : String
  category : Option String := none
  tags : List String := []
  «variables» : List PromptVariable := []
  examples : List PromptExample := []
  template : String

/-- Metadata block of an accepted definition. -/
structure PromptMetadata where
  name : String
  title : String
  description : String
  category : Option String
  tags : List String
  «variables» : List PromptVariable
  examples : List PromptExample

/-- An accepted definition as stored in the cache (`ParsedPrompt`). -/
structure ParsedPrompt where
  metadata : PromptMetadata
  template : String
  filePath : String

/-- One load-time validation error report (`PromptValidationError` in
`src/types/prompt.ts`). -/
structure PromptValidationError where
  file : String
  field : Option String := none
  message : String
  line : Option Int := none
deriving DecidableEq

/-- Result of validating one file (`PromptLoadResult`). -/
structure PromptLoadResult where
  success : Bool
  prompt : Option ParsedPrompt := none
  errors : List PromptValidationError

/-- Aggregate loader statistics (`PromptLoaderStats`). -/
structure PromptLoaderStats where
  totalFiles : Nat
  successfulLoads : Nat
  failedLoads : Nat
  errors : List PromptValidationError

/-- The loader module's mutable state: the prompt cache, the name-to-path
cache, and the statistics record. -/
structure LoaderState where
  promptCache : List (String × ParsedPrompt)
  filePathCache : List (String × String)
  stats : PromptLoaderStats

/-- Lookup in a JS `Map` modelled as an association list (first match). -/
def mapGet {α : Type} : List (String × α) → String → Option α
  | [], _ => none
  | (k, v) :: rest, key => if k = key then some v else mapGet rest key

/-- Property read on a JS object: a missing key reads as `undefined`. -/
def jsGet (vars : List (String × Value)) (name : String) : Value :=
  match mapGet vars name with
  | some v => v
  | none => Value.undef

/-- JS `Set` built by repeated `add`: deduplicate keeping the first
occurrence, preserving insertion order. -/
def listDedup : List String → List String
  | [] => []
  | x :: rest => x :: (listDedup rest).filter (fun y => y ≠ x)

def lbrace : Char := Char.ofNat 123

def rbrace : Char := Char.ofNat 125

def isLowerAscii (c : Char) : Bool := 'a' ≤ c && c ≤ 'z'

def isUpperAscii (c : Char) : Bool := 'A' ≤ c && c ≤ 'Z'

def isDigitAscii (c : Char) : Bool := '0' ≤ c && c ≤ '9'

/-- Identifier-start character class `[a-zA-Z_]` of the extraction regexes. -/
def isIdentStart (c : Char) : Bool := isLowerAscii c || isUpperAscii c || c = '_'

/-- Identifier-continuation character class `[a-zA-Z0-9_]`. -/
def isIdentChar (c : Char) : Bool := isIdentStart c || isDigitAscii c

/-- JS regex word character class `\w` = `[A-Za-z0-9_]`. -/
def isWordChar (c : Char) : Bool := isIdentChar c

/-- JS regex whitespace class `\s` restricted to the ASCII members. -/
def isJsSpace (c : Char) : Bool :=
  c = ' ' || c = Char.ofNat 9 || c = Char.ofNat 10 || c = Char.ofNat 13 ||
  c = Char.ofNat 12 || c = Char.ofNat 11

/-- Fuel-driven core of JS `String(value)`: an array renders as its
elements joined with a comma, where `undefined`/`null` elements render
empty (`Array.prototype.toString`). The fuel bounds nesting depth only;
`toJsString` passes a budget far beyond what a JS engine could recurse. -/
def toJsStringF : Nat → Value → String
  | 0, _ => ""
  | Nat.succ _, Value.undef => "undefined"
  | Nat.succ _, Value.null => "null"
  | Nat.succ _, Value.bool true => "true"
  | Nat.succ _, Value.bool false => "false"
  | Nat.succ _, Value.num n => toString n
  | Nat.succ _, Value.nan => "NaN"
  | Nat.succ _, Value.str s => s
  | Nat.succ _, Value.obj _ => "[object Object]"
  | Nat.succ fuel, Value.arr xs =>
      String.intercalate "," (xs.map (fun v =>
        match v with
        | Value.undef => ""
        | Value.null => ""
        | w => toJsStringF fuel w))

/-- Recursion budget standing in for the JS engine's call stack: far
beyond any nesting depth a JS run could stringify without overflowing. -/
def jsStackBudget : Nat := 2 ^ 64

/-- JS `String(value)` for the value shapes the helpers can meet. -/
def toJsString (v : Value) : String := toJsStringF jsStackBudget v

/-- Element conversion used by `Array.prototype.join`: `undefined` and
`null` render as the empty string. -/
def joinElem : Value → String
  | Value.undef => ""
  | Value.null => ""
  | v => toJsString v

/-- JS `Array.prototype.toString`, i.e. `join(",")`. -/
def arrToString (xs : List Value) : String :=
  String.intercalate "," (xs.map joinElem)

namespace Helpers

/-- Handlebars helper `capitalize`: uppercase the first character;
non-string input is returned unchanged. -/
def capitalize : Value → Value
  | Value.str s =>
      Value.str (match s.toList with
        | [] => ""
        | c :: rest => String.mk (c.toUpper :: rest))
  | v => v

/-- Handlebars helper `upper`. -/
def upper : Value → Value
  | Value.str s => Value.str (String.mk (s.toList.map Char.toUpper))
  | v => v

/-- Handlebars helper `lower`. -/
def lower : Value → Value
  | Value.str s => Value.str (String.mk (s.toList.map Char.toLower))
  | v => v

/-- Fuel-driven scanner for the `titleCase` helper: replace each `\w\S*`
token by its first character uppercased and the remainder lowercased.
Every step consumes at least one character, so fuel exceeding the length
never runs out. -/
def titleAux : Nat → List Char → List Char
  | 0, l => l
  | _, [] => []
  | Nat.succ fuel, c :: rest =>
      if isWordChar c then
        (c.toUpper :: (rest.takeWhile (fun d => !isJsSpace d)).map Char.toLower)
          ++ titleAux fuel (rest.dropWhile (fun d => !isJsSpace d))
      else c :: titleAux fuel rest

/-- Handlebars helper `titleCase`. -/
def titleCase : Value → Value
  | Value.str s => Value.str (String.mk (titleAux (s.toList.length + 1) s.toList))
  | v => v

/-- Scanner for the `kebabCase` helper: insert a dash at every
lowercase-to-uppercase transition (the `([a-z])([A-Z])` replacement). -/
def kebabAux : List Char → List Char
  | [] => []
  | [c] => [c]
  | c1 :: c2 :: rest =>
      if isLowerAscii c1 && isUpperAscii c2 then
        c1 :: '-' :: kebabAux (c2 :: rest)
      else
        c1 :: kebabAux (c2 :: rest)

/-- Handlebars helper `kebabCase`: dash the case transitions, then
lowercase the whole string. -/
def kebabCase : Value → Value
  | Value.str s => Value.str (String.mk ((kebabAux s.toList).map Char.toLower))
  | v => v

/-- Handlebars helper `join`: join array elements with the separator
(default `", "` when the separator argument is absent); non-array input
yields the empty string. -/
def join (array : Value) (separator : Value) : Value :=
  let sep := match separator with
    | Value.undef => ", "
    | v => toJsString v
  match array with
  | Value.arr xs => Value.str (String.intercalate sep (xs.map joinElem))
  | _ => Value.str ""

/-- Handlebars helper `first`: first element; empty or non-array input
yields the empty string. -/
def first : Value → Value
  | Value.arr (x :: _) => x
  | _ => Value.str ""

def lastAux : Value → List Value → Value
  | x, [] => x
  | _, y :: rest => lastAux y rest

/-- Handlebars helper `last`: last element; empty or non-array input
yields the empty string. -/
def last : Value → Value
  | Value.arr (x :: rest) => lastAux x rest
  | _ => Value.str ""

/-- Handlebars helper `length`: element count; non-array input yields 0. -/
def length : Value → Value
  | Value.arr xs => Value.num xs.length
  | _ => Value.num 0

/-- JS truthiness, as used by the `default` helper's `value || fallback`. -/
def isTruthy : Value → Bool
  | Value.undef => false
  | Value.null => false
  | Value.bool b => b
  | Value.num n => n != 0
  | Value.nan => false
  | Value.str s => s ≠ ""
  | Value.arr _ => true
  | Value.obj _ => true

/-- Handlebars helper `default`: `value || defaultValue`. -/
def dflt (value defaultValue : Value) : Value :=
  if isTruthy value then value else defaultValue

/-- Fuel-driven digit grouping for the `formatNumber` helper: chunks of
three. Every step consumes at least one character, so fuel at the length
never runs out. -/
def chunk3 : Nat → List Char → List (List Char)
  | 0, _ => []
  | _, [] => []
  | Nat.succ fuel, c :: rest => (c :: rest.take 2) :: chunk3 fuel (rest.drop 2)

/-- Thousands-grouped rendering of an integer, modelling
`Number.prototype.toLocaleString()` in the default en-US locale for the
integral values the helper meets. -/
def formatNumberStr (n : Int) : String :=
  let ds := (toString n.natAbs).toList
  let chunksRev := chunk3 ds.length ds.reverse
  let parts := (chunksRev.map (fun c => String.mk c.reverse)).reverse
  (if n < 0 then "-" else "") ++ String.intercalate "," parts

/-- Handlebars helper `formatNumber`: thousands grouping for numbers,
non-number input returned unchanged. -/
def formatNumber : Value → Value
  | Value.num n => Value.str (formatNumberStr n)
  | Value.nan => Value.str "NaN"
  | v => v

end Helpers

/-- One render-time variable validation error (`VariableValidationError`). -/
structure VariableValidationError where
  «variable» : String
  message : String
  provided : Value
  expected : String

/-- Result of a render call (`TemplateRenderResult`). -/
structure TemplateRenderResult where
  success : Bool
  rendered : Option String := none
  errors : List String
deriving DecidableEq

/-- Handlebars `escapeExpression` character replacements. -/
def escapeChar (c : Char) : String :=
  if c = '&' then "&amp;"
  else if c = '<' then "&lt;"
  else if c = '>' then "&gt;"
  else if c = '"' then "&quot;"
  else if c = Char.ofNat 39 then "&#x27;"
  else if c = Char.ofNat 96 then "&#x60;"
  else if c = '=' then "&#x3D;"
  else String.singleton c

/-- Handlebars `escapeExpression` over a whole string. -/
def htmlEscape (s : String) : String :=
  String.join (s.toList.map escapeChar)

/-- Consume leading regex whitespace (`\s*`). -/
def skipWs (l : List Char) : List Char := l.dropWhile isJsSpace

/-- Parse one identifier `[a-zA-Z_][a-zA-Z0-9_]*` at the head of the
character list, returning it with the remaining characters. -/
def parseIdent (l : List Char) : Option (String × List Char) :=
  match l with
  | [] => none
  | c :: rest =>
      if isIdentStart c then
        some (String.mk (c :: rest.takeWhile isIdentChar),
              rest.dropWhile isIdentChar)
      else none

/-- Handlebars output conversion for an interpolated value: `undefined`
and `null` render as the empty string, anything else as `String(value)`. -/
def mustacheString : Value → String
  | Value.undef => ""
  | Value.null => ""
  | v => toJsString v

/-- Fuel-driven evaluator for the plain-interpolation fragment of the
substitution language used by `Handlebars.compile(template)(variables)`:
literal text plus escaped `\x7b\x7bname\x7d\x7d` interpolation. A
construct outside this fragment surfaces as a compile/evaluation error,
the shape the enclosing renderer catches. The fuel argument strictly
exceeds the character count, so it never runs out on a full evaluation
started by `evalTemplate`. -/
def evalAux (vars : List (String × Value)) : Nat → List Char → Except String String
  | 0, _ => Except.error "template evaluation out of fuel"
  | _, [] => Except.ok ""
  | Nat.succ fuel, c1 :: rest =>
      if c1 = lbrace then
        match rest with
        | c2 :: rest2 =>
            if c2 = lbrace then
              match parseIdent (skipWs rest2) with
              | none => Except.error "Parse error: expected an identifier"
              | some (id, rest3) =>
                  match skipWs rest3 with
                  | c3 :: c4 :: rest4 =>
                      if c3 = rbrace && c4 = rbrace then
                        match evalAux vars fuel rest4 with
                        | Except.ok tail =>
                            Except.ok (htmlEscape (mustacheString (jsGet vars id)) ++ tail)
                        | Except.error e => Except.error e
                      else Except.error "Parse error: expected closing braces"
                  | _ => Except.error "Parse error: expected closing braces"
            else
              match evalAux vars fuel rest with
              | Except.ok tail => Except.ok (String.singleton c1 ++ tail)
              | Except.error e => Except.error e
        | [] => Except.ok (String.singleton c1)
      else
        match evalAux vars fuel rest with
        | Except.ok tail => Except.ok (String.singleton c1 ++ tail)
        | Except.error e => Except.error e

/-- Compile-and-evaluate step of the renderer:
`Handlebars.compile(prompt.template)(variables)`. -/
def evalTemplate (template : String) (vars : List (String × Value)) :
    Except String String :=
  let cs := template.toList
  evalAux vars (cs.length + 1) cs

/-- Validate a single supplied value against its declaration
(`validateVariableType`). -/
def validateVariableType (v : PromptVariable) (value : Value) :
    Option VariableValidationError :=
  match v.type with
  | VarType.text =>
      match value with
      | Value.str s =>
          match v.max_length with
          | some ml =>
              if ml ≠ 0 && (s.length : Int) > ml then
                some { «variable» := v.name,
                       message := "Variable '" ++ v.name ++
                         "' exceeds maximum length of " ++ toString ml,
                       provided := value,
                       expected := "string with max length " ++ toString ml }
              else none
          | none => none
      | _ =>
          some { «variable» := v.name,
                 message := "Variable '" ++ v.name ++ "' must be a string",
                 provided := value, expected := "string" }
  | VarType.number =>
      match value with
      | Value.num n =>
          match v.min with
          | some lo =>
              if n < lo then
                some { «variable» := v.name,
                       message := "Variable '" ++ v.name ++
                         "' must be at least " ++ toString lo,
                       provided := value,
                       expected := "number >= " ++ toString lo }
              else
                match v.max with
                | some hi =>
                    if n > hi then
                      some { «variable» := v.name,
                             message := "Variable '" ++ v.name ++
                               "' must be at most " ++ toString hi,
                             provided := value,
                             expected := "number <= " ++ toString hi }
                    else none
                | none => none
          | none =>
              match v.max with
              | some hi =>
                  if n > hi then
                    some { «variable» := v.name,
                           message := "Variable '" ++ v.name ++
                             "' must be at most " ++ toString hi,
                           provided := value,
                           expected := "number <= " ++ toString hi }
                  else none
              | none => none
      | _ =>
          some { «variable» := v.name,
                 message := "Variable '" ++ v.name ++ "' must be a number",
                 provided := value, expected := "number" }
  | VarType.boolean =>
      match value with
      | Value.bool _ => none
      | _ =>
          some { «variable» := v.name,
                 message := "Variable '" ++ v.name ++ "' must be a boolean",
                 provided := value, expected := "boolean" }
  | VarType.enum =>
      match value with
      | Value.str s =>
          match v.values with
          | some vs =>
              if !(vs.contains s) then
                some { «variable» := v.name,
                       message := "Variable '" ++ v.name ++
                         "' must be one of: " ++ String.intercalate ", " vs,
                       provided := value,
                       expected := "one of: " ++ String.intercalate ", " vs }
              else none
          | none => none
      | _ =>
          some { «variable» := v.name,
                 message := "Variable '" ++ v.name ++
                   "' must be a string for enum type",
                 provided := value, expected := "string" }
  | VarType.array =>
      match value with
      | Value.arr _ => none
      | _ =>
          some { «variable» := v.name,
                 message := "Variable '" ++ v.name ++ "' must be an array",
                 provided := value, expected := "array" }

/-- Truth of "the supplied value is absent, null, or the empty string"
(`value === undefined || value === null || value === ''`). -/
def isMissingValue : Value → Bool
  | Value.undef => true
  | Value.null => true
  | Value.str s => s = ""
  | _ => false

/-- Truth of `value === undefined || value === null` (the skip condition
for optional variables). -/
def isAbsentValue : Value → Bool
  | Value.undef => true
  | Value.null => true
  | _ => false

/-- The missing-required-variable error for a declaration, as the
validation loop pushes it. -/
def missingErr (v : PromptVariable) (value : Value) : VariableValidationError :=
  { «variable» := v.name,
    message := "Required variable '" ++ v.name ++ "' is missing",
    provided := value,
    expected := match v.type with
      | VarType.text => "text"
      | VarType.number => "number"
      | VarType.boolean => "boolean"
      | VarType.enum => "enum"
      | VarType.array => "array" }

/-- Phase-1 loop of the renderer (`validateVariables`): walk the declared
variables in order, collecting every error; a missing required value or
an absent optional value ends that iteration (`continue`), otherwise the
type rule runs. Unknown supplied keys are only logged, never errors. -/
def validateVariables : List PromptVariable → List (String × Value) →
    List VariableValidationError
  | [], _ => []
  | v :: rest, provided =>
      let value := jsGet provided v.name
      if v.required && isMissingValue value then
        missingErr v value :: validateVariables rest provided
      else if isAbsentValue value then
        validateVariables rest provided
      else
        match validateVariableType v value with
        | some e => e :: validateVariables rest provided
        | none => validateVariables rest provided

/-- Per-declaration error contribution; `validateVariables` is proved
equal to the concatenation of these over the declaration list. -/
def varErrors (provided : List (String × Value)) (v : PromptVariable) :
    List VariableValidationError :=
  let value := jsGet provided v.name
  if v.required && isMissingValue value then [missingErr v value]
  else if isAbsentValue value then []
  else
    match validateVariableType v value with
    | some e => [e]
    | none => []

/-- Render a prompt template with the provided variables (`renderPrompt`):
phase 1 validates the variables and, when any error was collected, fails
with the collected messages; phase 2 compiles and evaluates the template,
turning an engine failure into a single rendering-error entry. -/
def renderPrompt (prompt : ParsedPrompt) (vars : List (String × Value)) :
    TemplateRenderResult :=
  let validationErrors := validateVariables prompt.metadata.variables vars
  if validationErrors.length > 0 then
    { success := false, rendered := none,
      errors := validationErrors.map (fun e => e.message) }
  else
    match evalTemplate prompt.template vars with
    | Except.ok rendered =>
        { success := true, rendered := some rendered, errors := [] }
    | Except.error e =>
        { success := false, rendered := none,
          errors := ["Template rendering error: " ++ e] }

/-- Anchored match of the plain-interpolation extraction pattern
`\x5c{\x5c{\s*([a-zA-Z_][a-zA-Z0-9_]*)\s*\x5c}\x5c}` at the head of the
character list: on success, the captured identifier and the characters
after the match. -/
def matchSimpleVar (l : List Char) : Option (String × List Char) :=
  match l with
  | c1 :: c2 :: rest =>
      if c1 = lbrace && c2 = lbrace then
        match parseIdent (skipWs rest) with
        | some (id, rest2) =>
            match skipWs rest2 with
            | c3 :: c4 :: rest3 =>
                if c3 = rbrace && c4 = rbrace then some (id, rest3) else none
            | _ => none
        | none => none
      else none
  | _ => none

/-- Anchored literal match, consuming the given characters. -/
def matchLit : List Char → List Char → Option (List Char)
  | [], l => some l
  | c :: cs, x :: xs => if x = c then matchLit cs xs else none
  | _ :: _, [] => none

/-- Anchored match of a block-open extraction pattern
(`#if` or `#unless` keyword followed by `\s+` and an identifier). -/
def matchBlock (keyword : List Char) (l : List Char) : Option (String × List Char) :=
  match l with
  | c1 :: c2 :: rest =>
      if c1 = lbrace && c2 = lbrace then
        match matchLit keyword (skipWs rest) with
        | some rest2 =>
            match rest2 with
            | d :: rest3 =>
                if isJsSpace d then
                  match parseIdent (skipWs rest3) with
                  | some (id, rest4) =>
                      match skipWs rest4 with
                      | c3 :: c4 :: rest5 =>
                          if c3 = rbrace && c4 = rbrace then some (id, rest5)
                          else none
                      | _ => none
                  | none => none
                else none
            | [] => none
        | none => none
      else none
  | _ => none

/-- Global regex scan (`pattern.exec` in a loop): at each position try the
anchored matcher; on a match record the capture and continue after the
matched span, otherwise advance one character. The fuel strictly exceeds
the character count, so the scan always completes. -/
def scanAll (m : List Char → Option (String × List Char)) :
    Nat → List Char → List String
  | 0, _ => []
  | _, [] => []
  | Nat.succ fuel, c :: rest =>
      match m (c :: rest) with
      | some (id, rest2) => id :: scanAll m fuel rest2
      | none => scanAll m fuel rest

/-- Extract variable references from a Handlebars template
(`extractTemplateVariables`): run the three patterns over the whole
template and accumulate the captures into a `Set`. -/
def extractTemplateVariables (template : String) : List String :=
  let cs := template.toList
  let fuel := cs.length + 1
  listDedup
    (scanAll matchSimpleVar fuel cs
      ++ scanAll (matchBlock ("#if".toList)) fuel cs
      ++ scanAll (matchBlock ("#unless".toList)) fuel cs)

/-- Duplicate-variable-name check of `performCustomValidations`: walk the
declarations with the running set of seen names, reporting a duplicate
error for each name already seen. -/
def dupErrorsAux (filePath : String) : List String → List PromptVariable →
    List PromptValidationError
  | _, [] => []
  | seen, v :: rest =>
      (if seen.contains v.name then
        [{ file := filePath, field := some "variables",
           message := "Duplicate variable name: " ++ v.name }]
      else []) ++ dupErrorsAux filePath (v.name :: seen) rest

/-- Truth of "enum variable with missing or empty `values`"
(`variable.type === 'enum' && (!variable.values || variable.values.length === 0)`). -/
def enumBad (v : PromptVariable) : Bool :=
  match v.type, v.values with
  | VarType.enum, none => true
  | VarType.enum, some vs => vs.isEmpty
  | _, _ => false

/-- Enum-values check of `performCustomValidations`. -/
def enumErrors (filePath : String) (vars : List PromptVariable) :
    List PromptValidationError :=
  (vars.filter enumBad).map (fun v =>
    { file := filePath, field := some ("variables." ++ v.name),
      message := "Enum variable '" ++ v.name ++ "' must have at least one value" })

/-- Template-reference check of `performCustomValidations`: every
extracted reference must name a declared variable. -/
def templateErrors (filePath : String) (declared : List String)
    (template : String) : List PromptValidationError :=
  ((extractTemplateVariables template).filter
      (fun t => !(declared.contains t))).map (fun t =>
    { file := filePath, field := some "template",
      message := "Template references undefined variable: \x7b\x7b" ++ t ++ "\x7d\x7d" })

/-- Example-variables check of `performCustomValidations`: every key of an
example's variable map must name a declared variable. -/
def exampleErrors (filePath : String) (declared : List String) :
    List PromptExample → List PromptValidationError
  | [] => []
  | ex :: rest =>
      (((listDedup (ex.variables.map Prod.fst)).filter
          (fun k => !(declared.contains k))).map (fun k =>
        { file := filePath, field := some ("examples." ++ ex.title),
          message := "Example '" ++ ex.title ++ "' uses undefined variable: " ++ k }))
        ++ exampleErrors filePath declared rest

/-- Custom semantic validations run after the structural schema
(`performCustomValidations`): duplicate names, enum values, template
references, example variables — all collected in order. The source's
`data.variables || []` and `data.examples || []` reads are the identity
here: after the schema's defaults both fields are always arrays, and a JS
array (even an empty one) is truthy. -/
def performCustomValidations (data : PromptFile) (filePath : String) :
    List PromptValidationError :=
  let vars := data.variables
  let declared := vars.map PromptVariable.name
  dupErrorsAux filePath [] vars
    ++ enumErrors filePath vars
    ++ templateErrors filePath declared data.template
    ++ exampleErrors filePath declared data.examples

/-- Assemble the cached form of a validated definition (the `ParsedPrompt`
construction inside `validatePromptData`; its `|| []` fallbacks are the
identity on the always-present post-default arrays). -/
def mkParsedPrompt (validated : PromptFile) (filePath : String) : ParsedPrompt :=
  { metadata :=
      { name := validated.name, title := validated.title,
        description := validated.description, category := validated.category,
        tags := validated.tags,
        «variables» := validated.variables,
        examples := validated.examples },
    template := validated.template,
    filePath := filePath }

/-- One field-level report of `PromptFileSchema.safeParse`: the path of
the offending field (array indices rendered in decimal, as `path.join`
does) and the issue message. -/
structure ZodIssue where
  path : List String
  message : String
deriving DecidableEq

/-- Name Zod reports for the parsed type of a received value (its
`getParsedType`). -/
def zodTypeName : Value → String
  | Value.undef => "undefined"
  | Value.null => "null"
  | Value.bool _ => "boolean"
  | Value.num _ => "number"
  | Value.nan => "nan"
  | Value.str _ => "string"
  | Value.arr _ => "array"
  | Value.obj _ => "object"

/-- Issues carried by a failed field parse, none for a successful one. -/
def errsOf {A : Type} : Except (List ZodIssue) A → List ZodIssue
  | Except.ok _ => []
  | Except.error es => es

/-- The `invalid_type` issue for a wrong or missing value (`Required` when
the input is `undefined`, as Zod reports a missing required field). -/
def typeIssue (path : List String) (expected : String) (v : Value) : ZodIssue :=
  match v with
  | Value.undef => { path := path, message := "Required" }
  | w => { path := path,
           message := "Expected " ++ expected ++ ", received " ++ zodTypeName w }

/-- Zod `z.string()`. -/
def parseString (path : List String) (v : Value) : Except (List ZodIssue) String :=
  match v with
  | Value.str s => Except.ok s
  | w => Except.error [typeIssue path "string" w]

/-- Zod `z.string().optional()`. -/
def parseOptString (path : List String) (v : Value) :
    Except (List ZodIssue) (Option String) :=
  match v with
  | Value.undef => Except.ok none
  | Value.str s => Except.ok (some s)
  | w => Except.error [typeIssue path "string" w]

/-- Zod `z.boolean().optional().default(b)`. -/
def parseBoolDefault (b : Bool) (path : List String) (v : Value) :
    Except (List ZodIssue) Bool :=
  match v with
  | Value.undef => Except.ok b
  | Value.bool c => Except.ok c
  | w => Except.error [typeIssue path "boolean" w]

/-- Zod `z.number().optional()` (NaN is rejected: its parsed type is
`nan`, not `number`). -/
def parseOptNumber (path : List String) (v : Value) :
    Except (List ZodIssue) (Option Int) :=
  match v with
  | Value.undef => Except.ok none
  | Value.num n => Except.ok (some n)
  | w => Except.error [typeIssue path "number" w]

/-- Zod `z.unknown().optional()`: accepts anything; `undefined` reads back
as an absent value. -/
def parseUnknown (v : Value) : Except (List ZodIssue) (Option Value) :=
  match v with
  | Value.undef => Except.ok none
  | w => Except.ok (some w)

/-- Zod `PromptVariableTypeSchema = z.enum(['text', 'number', 'boolean',
'enum', 'array'])`. -/
def parseVarType (path : List String) (v : Value) :
    Except (List ZodIssue) VarType :=
  match v with
  | Value.str "text" => Except.ok VarType.text
  | Value.str "number" => Except.ok VarType.number
  | Value.str "boolean" => Except.ok VarType.boolean
  | Value.str "enum" => Except.ok VarType.enum
  | Value.str "array" => Except.ok VarType.array
  | Value.str s =>
      Except.error
        [{ path := path,
           message := "Invalid enum value. Expected 'text' | 'number' | 'boolean' | 'enum' | 'array', received '" ++ s ++ "'" }]
  | w => Except.error [typeIssue path "'text' | 'number' | 'boolean' | 'enum' | 'array'" w]

/-- Element loop of Zod `z.array(X)`: parse every element at its indexed
path, collecting the issues of all failing elements. -/
def parseElems {A : Type} (elem : List String → Value → Except (List ZodIssue) A)
    (path : List String) : Nat → List Value → Except (List ZodIssue) (List A)
  | _, [] => Except.ok []
  | i, v :: rest =>
      match elem (path ++ [toString i]) v, parseElems elem path (i + 1) rest with
      | Except.ok a, Except.ok as => Except.ok (a :: as)
      | e1, e2 => Except.error (errsOf e1 ++ errsOf e2)

/-- Zod `z.array(X)`. -/
def parseArrayOf {A : Type} (elem : List String → Value → Except (List ZodIssue) A)
    (path : List String) (v : Value) : Except (List ZodIssue) (List A) :=
  match v with
  | Value.arr xs => parseElems elem path 0 xs
  | w => Except.error [typeIssue path "array" w]

/-- Zod `z.array(X).optional()`. -/
def parseOptArrayOf {A : Type}
    (elem : List String → Value → Except (List ZodIssue) A)
    (path : List String) (v : Value) : Except (List ZodIssue) (Option (List A)) :=
  match v with
  | Value.undef => Except.ok none
  | w => (parseArrayOf elem path w).map some

/-- Zod `z.array(X).optional().default([])`. -/
def parseArrayDefault {A : Type}
    (elem : List String → Value → Except (List ZodIssue) A)
    (path : List String) (v : Value) : Except (List ZodIssue) (List A) :=
  match v with
  | Value.undef => Except.ok []
  | w => parseArrayOf elem path w

/-- Zod `z.record(z.string(), z.unknown())`: any object passes with its
own entries; a JS array also has parsed type compatible with a record and
reads back through its decimal index keys; anything else is an
`invalid_type`. -/
def parseRecord (path : List String) (v : Value) :
    Except (List ZodIssue) (List (String × Value)) :=
  match v with
  | Value.obj fields => Except.ok fields
  | Value.arr xs => Except.ok ((List.range xs.length).zip xs |>.map
      (fun p => (toString p.1, p.2)))
  | w => Except.error [typeIssue path "object" w]

/-- Zod `z.string()` element parser for `z.array(z.string())` fields. -/
def parseStringElem (path : List String) (v : Value) :
    Except (List ZodIssue) String :=
  parseString path v

/-- Zod `PromptVariableSchema.parse` of one element: all field issues of
the object are collected in shape order. -/
def parsePromptVariable (path : List String) (v : Value) :
    Except (List ZodIssue) PromptVariable :=
  match v with
  | Value.obj fields =>
      let eName := parseString (path ++ ["name"]) (jsGet fields "name")
      let eType := parseVarType (path ++ ["type"]) (jsGet fields "type")
      let eReq := parseBoolDefault false (path ++ ["required"]) (jsGet fields "required")
      let eDesc := parseOptString (path ++ ["description"]) (jsGet fields "description")
      let eDefault := parseUnknown (jsGet fields "default")
      let eValues := parseOptArrayOf parseStringElem (path ++ ["values"]) (jsGet fields "values")
      let eSugg := parseOptArrayOf parseStringElem (path ++ ["suggestions"]) (jsGet fields "suggestions")
      let eMaxLen := parseOptNumber (path ++ ["max_length"]) (jsGet fields "max_length")
      let eMin := parseOptNumber (path ++ ["min"]) (jsGet fields "min")
      let eMax := parseOptNumber (path ++ ["max"]) (jsGet fields "max")
      match eName, eType, eReq, eDesc, eDefault, eValues, eSugg, eMaxLen, eMin, eMax with
      | Except.ok n, Except.ok t, Except.ok r, Except.ok d, Except.ok df,
        Except.ok vs, Except.ok sg, Except.ok ml, Except.ok mn, Except.ok mx =>
          Except.ok { name := n, type := t, required := r, description := d,
                      default := df, values := vs, suggestions := sg,
                      max_length := ml, min := mn, max := mx }
      | _, _, _, _, _, _, _, _, _, _ =>
          Except.error (errsOf eName ++ errsOf eType ++ errsOf eReq ++ errsOf eDesc
            ++ errsOf eDefault ++ errsOf eValues ++ errsOf eSugg ++ errsOf eMaxLen
            ++ errsOf eMin ++ errsOf eMax)
  | w => Except.error [typeIssue path "object" w]

/-- Zod `PromptExampleSchema.parse` of one element. -/
def parsePromptExample (path : List String) (v : Value) :
    Except (List ZodIssue) PromptExample :=
  match v with
  | Value.obj fields =>
      let eTitle := parseString (path ++ ["title"]) (jsGet fields "title")
      let eVars := parseRecord (path ++ ["variables"]) (jsGet fields "variables")
      let eExp := parseOptString (path ++ ["expected_output"]) (jsGet fields "expected_output")
      match eTitle, eVars, eExp with
      | Except.ok t, Except.ok vs, Except.ok ex =>
          Except.ok { title := t, «variables» := vs, expected_output := ex }
      | _, _, _ =>
          Except.error (errsOf eTitle ++ errsOf eVars ++ errsOf eExp)
  | w => Except.error [typeIssue path "object" w]

/-- Zod `PromptFileSchema.safeParse` (`src/types/prompt.ts`): the root
must be an object; every shape field is parsed at its path; issues of all
failing fields are collected in shape order; the optional-with-default
collections come back as plain (possibly empty) arrays. -/
def safeParse (v : Value) : Except (List ZodIssue) PromptFile :=
  match v with
  | Value.obj fields =>
      let eName := parseString ["name"] (jsGet fields "name")
      let eTitle := parseString ["title"] (jsGet fields "title")
      let eDesc := parseString ["description"] (jsGet fields "description")
      let eCat := parseOptString ["category"] (jsGet fields "category")
      let eTags := parseArrayDefault parseStringElem ["tags"] (jsGet fields "tags")
      let eVars := parseArrayDefault parsePromptVariable ["variables"] (jsGet fields "variables")
      let eExs := parseArrayDefault parsePromptExample ["examples"] (jsGet fields "examples")
      let eTmpl := parseString ["template"] (jsGet fields "template")
      match eName, eTitle, eDesc, eCat, eTags, eVars, eExs, eTmpl with
      | Except.ok n, Except.ok t, Except.ok d, Except.ok c, Except.ok tg,
        Except.ok vs, Except.ok exs, Except.ok tp =>
          Except.ok { name := n, title := t, description := d, category := c,
                      tags := tg, «variables» := vs, examples := exs,
                      template := tp }
      | _, _, _, _, _, _, _, _ =>
          Except.error (errsOf eName ++ errsOf eTitle ++ errsOf eDesc ++ errsOf eCat
            ++ errsOf eTags ++ errsOf eVars ++ errsOf eExs ++ errsOf eTmpl)
  | w => Except.error [typeIssue [] "object" w]

/-- Turn the issues of a failed `safeParse` into per-file validation
errors (`formatZodErrors`): `field` is the dotted path, `message` is the
dotted path followed by the issue message. -/
def formatZodErrors (issues : List ZodIssue) (filePath : String) :
    List PromptValidationError :=
  issues.map (fun iss =>
    { file := filePath,
      field := some (String.intercalate "." iss.path),
      message := String.intercalate "." iss.path ++ ": " ++ iss.message })

/-- Validate one decoded file (`validatePromptData`): run
`PromptFileSchema.safeParse`, failing the file with the formatted issues;
otherwise run the custom validations, failing the file when any error was
collected; otherwise produce the parsed prompt. -/
def validatePromptData (data : Value) (filePath : String) : PromptLoadResult :=
  match safeParse data with
  | Except.error issues =>
      { success := false, prompt := none,
        errors := formatZodErrors issues filePath }
  | Except.ok validated =>
      let customErrors := performCustomValidations validated filePath
      if customErrors.length > 0 then
        { success := false, prompt := none, errors := customErrors }
      else
        { success := true, prompt := some (mkParsedPrompt validated filePath),
          errors := [] }

/-- Get loader statistics (`getLoaderStats`). -/
def getLoaderStats (st : LoaderState) : PromptLoaderStats := st.stats

/-- Accepted definition with one required enum variable `lang` over
`["Go", "Rust"]` and template `"Language: \x7b\x7blang\x7d\x7d"`. -/
def langPrompt : ParsedPrompt :=
  { metadata :=
      { name := "lang-prompt", title := "Language", description := "pick a language",
        category := none, tags := [],
        «variables» := [{ name := "lang", type := VarType.enum, required := true,
                          values := some ["Go", "Rust"] }],
        examples := [] },
    template := "Language: \x7b\x7blang\x7d\x7d",
    filePath := "lang.yaml" }

/-- Decoded YAML document whose template consists of the single bare
helper-name token `\x7b\x7bjoin\x7d\x7d` and declares no variables. -/
def yamlJoin : Value :=
  Value.obj [("name", Value.str "join-only"), ("title", Value.str "Join"),
    ("description", Value.str "bare helper token"),
    ("template", Value.str "\x7b\x7bjoin\x7d\x7d")]

/-- Accepted definition with one required text variable `title`. -/
def titlePrompt : ParsedPrompt :=
  { metadata :=
      { name := "titled", title := "Titled", description := "requires a title",
        category := none, tags := [],
        «variables» := [{ name := "title", type := VarType.text, required := true }],
        examples := [] },
    template := "Title: \x7b\x7btitle\x7d\x7d",
    filePath := "t.yaml" }

theorem validateVariables_eq_bind :
    ∀ (decl : List PromptVariable) (provided : List (String × Value)),
      validateVariables decl provided = decl.flatMap (varErrors provided) := by
  intro decl
  induction decl with
  | nil => intro provided; simp [validateVariables]
  | cons v rest ih =>
      intro provided
      simp only [validateVariables, varErrors, List.flatMap_cons]
      by_cases h1 : v.required && isMissingValue (jsGet provided v.name)
      · rw [if_pos h1, if_pos h1, ih]
        simp
      · rw [if_neg h1, if_neg h1]
        by_cases h2 : isAbsentValue (jsGet provided v.name)
        · rw [if_pos h2, if_pos h2, ih]
          simp
        · rw [if_neg h2, if_neg h2]
          cases h3 : validateVariableType v (jsGet provided v.name) with
          | some e => rw [ih]; simp
          | none => rw [ih]; simp

theorem mem_validateVariables_of_missing
    (decl : List PromptVariable) (provided : List (String × Value))
    (v : PromptVariable) (hv : v ∈ decl) (hreq : v.required = true)
    (hmiss : isMissingValue (jsGet provided v.name) = true) :
    missingErr v (jsGet provided v.name) ∈ validateVariables decl provided := by
  rw [validateVariables_eq_bind]
  apply List.mem_flatMap.mpr
  refine ⟨v, hv, ?_⟩
  simp only [varErrors, hreq, hmiss]
  simp

theorem renderPrompt_validation_failure (p : ParsedPrompt)
    (vars : List (String × Value))
    (h : validateVariables p.metadata.variables vars ≠ []) :
    renderPrompt p vars =
      { success := false, rendered := none,
        errors := (validateVariables p.metadata.variables vars).map
          (fun e => e.message) } := by
  have hlen : (validateVariables p.metadata.variables vars).length > 0 := by
    cases hv : validateVariables p.metadata.variables vars with
    | nil => exact absurd hv h
    | cons a l => simp
  simp [renderPrompt, if_pos hlen]

/-- C8: the helper library is deterministic and satisfies the five fixed
equalities on `kebabCase`, `titleCase`, `formatNumber`, `join` and `last`. -/
theorem claim8_helper_determinism :
    Helpers.kebabCase (Value.str "apiDocumentation") = Value.str "api-documentation" ∧
    Helpers.titleCase (Value.str "api documentation generator")
      = Value.str "Api Documentation Generator" ∧
    Helpers.formatNumber (Value.num 1000) = Value.str "1,000" ∧
    Helpers.join (Value.arr [Value.str "a", Value.str "b"]) (Value.str " | ")
      = Value.str "a | b" ∧
    Helpers.last (Value.arr []) = Value.str "" :=
  ⟨rfl, rfl, rfl, rfl, rfl⟩

set_option maxRecDepth 10000 in
/-- C7: on `langPrompt`, rendering with `lang = "Go"` yields exactly
`"Language: Go"`; rendering with `lang = "Python"` fails with the single
enum-membership error naming `lang`, which is not a rendering error. -/
theorem claim7_enum_member_rendering :
    renderPrompt langPrompt [("lang", Value.str "Go")] =
      { success := true, rendered := some "Language: Go", errors := [] } ∧
    renderPrompt langPrompt [("lang", Value.str "Python")] =
      { success := false, rendered := none,
        errors := ["Variable 'lang' must be one of: Go, Rust"] } ∧
    (∀ e : String,
      "Variable 'lang' must be one of: Go, Rust" ≠ "Template rendering error: " ++ e) := by
  refine ⟨rfl, rfl, ?_⟩
  intro e h
  have h2 : ("Variable 'lang' must be one of: Go, Rust").data.take 26
      = (("Template rendering error: " ++ e)).data.take 26 := by rw [h]
  rw [String.data_append] at h2
  rw [List.take_append_of_le_length (by decide)] at h2
  exact absurd h2 (by decide)

/-- C5: a render result is success with rendered text and an empty error
list, or failure with no rendered text and a non-empty error list, never
both; a substitution-engine failure surfaces as the single rendering error
entry. -/
theorem claim5_render_result_shape (p : ParsedPrompt) (vars : List (String × Value)) :
    ((renderPrompt p vars).success = true →
        (renderPrompt p vars).rendered.isSome = true ∧ (renderPrompt p vars).errors = []) ∧
    ((renderPrompt p vars).success = false →
        (renderPrompt p vars).rendered = none ∧ (renderPrompt p vars).errors ≠ []) ∧
    (∀ e, validateVariables p.metadata.variables vars = [] →
        evalTemplate p.template vars = Except.error e →
        renderPrompt p vars =
          { success := false, rendered := none,
            errors := ["Template rendering error: " ++ e] }) := by
  by_cases hv : (validateVariables p.metadata.variables vars).length > 0
  · have hne : validateVariables p.metadata.variables vars ≠ [] := by
      intro hnil
      rw [hnil] at hv
      simp at hv
    rw [renderPrompt_validation_failure p vars hne]
    refine ⟨?_, ?_, ?_⟩
    · intro h; simp at h
    · intro _
      refine ⟨rfl, ?_⟩
      simp only [ne_eq, List.map_eq_nil_iff]
      exact hne
    · intro e hnil _
      exact absurd hnil hne
  · have hnil : validateVariables p.metadata.variables vars = [] := by
      cases hv2 : validateVariables p.metadata.variables vars with
      | nil => rfl
      | cons a l => rw [hv2] at hv; simp at hv
    cases he : evalTemplate p.template vars with
    | ok r =>
        have hres : renderPrompt p vars =
            { success := true, rendered := some r, errors := [] } := by
          simp [renderPrompt, hnil, he]
        rw [hres]
        refine ⟨?_, ?_, ?_⟩
        · intro _; exact ⟨rfl, rfl⟩
        · intro h; simp at h
        · intro e _ he2
          exact absurd he2 (by simp)
    | error e =>
        have hres : renderPrompt p vars =
            { success := false, rendered := none,
              errors := ["Template rendering error: " ++ e] } := by
          simp [renderPrompt, hnil, he]
        rw [hres]
        refine ⟨?_, ?_, ?_⟩
        · intro h; simp at h
        · intro _; exact ⟨rfl, by simp⟩
        · intro e2 _ he2
          simp only [Except.error.injEq] at he2
          rw [he2]

/-- Witness for C5 at a concrete failing call: rendering `titlePrompt`
with no variables fails with no rendered text and a non-empty error list. -/
theorem claim5_witness :
    (renderPrompt titlePrompt []).rendered = none ∧
    (renderPrompt titlePrompt []).errors ≠ [] :=
  (claim5_render_result_shape titlePrompt []).2.1 rfl

/-- C4: every required declared variable whose supplied value is absent,
null or empty contributes its missing-required error; the collected error
list is exactly the concatenation of each declared variable's errors (no
fail-fast); and the substitution phase runs only when no error was
collected — a non-empty error list makes the render call return the
validation failure unchanged. -/
theorem claim4_variable_validation (p : ParsedPrompt) (vars : List (String × Value)) :
    (∀ v ∈ p.metadata.variables, v.required = true →
        isMissingValue (jsGet vars v.name) = true →
        missingErr v (jsGet vars v.name) ∈ validateVariables p.metadata.variables vars) ∧
    validateVariables p.metadata.variables vars
      = p.metadata.variables.flatMap (varErrors vars) ∧
    (validateVariables p.metadata.variables vars ≠ [] →
        renderPrompt p vars =
          { success := false, rendered := none,
            errors := (validateVariables p.metadata.variables vars).map
              (fun e => e.message) }) := by
  refine ⟨?_, ?_, ?_⟩
  · intro v hv hreq hmiss
    exact mem_validateVariables_of_missing _ _ v hv hreq hmiss
  · exact validateVariables_eq_bind _ _
  · intro hne
    exact renderPrompt_validation_failure p vars hne

/-- Witness for C4: `titlePrompt` rendered with an empty variable map
collects the missing-required error for `title`. -/
theorem claim4_witness :
    missingErr { name := "title", type := VarType.text, required := true }
        (jsGet [] "title")
      ∈ validateVariables titlePrompt.metadata.variables [] :=
  (claim4_variable_validation titlePrompt []).1
    { name := "title", type := VarType.text, required := true }
    (by simp [titlePrompt]) rfl rfl


set_option maxRecDepth 10000 in
/-- C6 (counterexample): a template consisting of the bare helper-name
token `\x7b\x7bjoin\x7d\x7d` with no declared variable is extracted as a
variable reference and the file is rejected with an unresolved-reference
error — bare helper-name tokens are not excluded from the check. -/
theorem claim6_counterexample :
    extractTemplateVariables "\x7b\x7bjoin\x7d\x7d" = ["join"] ∧
    (validatePromptData yamlJoin "join.yaml").success = false ∧
    (validatePromptData yamlJoin "join.yaml").errors =
      [{ file := "join.yaml", field := some "template",
         message := "Template references undefined variable: \x7b\x7bjoin\x7d\x7d" }] :=
  ⟨rfl, rfl, rfl⟩

set_option maxRecDepth 10000 in
/-- C6 (amended): helper invocations with arguments do not match the
extraction patterns and are excluded from the undefined-variable check,
but a bare helper-name token is treated as a variable reference, so a
definition whose template contains only such tokens is rejected. -/
theorem claim6_amended_helper_tokens :
    extractTemplateVariables "\x7b\x7bcapitalize language\x7d\x7d" = [] ∧
    extractTemplateVariables "\x7b\x7bjoin items sep\x7d\x7d" = [] ∧
    extractTemplateVariables "\x7b\x7bjoin\x7d\x7d" = ["join"] ∧
    extractTemplateVariables "\x7b\x7blength\x7d\x7d" = ["length"] ∧
    (validatePromptData yamlJoin "join.yaml").success = false :=
  ⟨rfl, rfl, rfl, rfl, rfl⟩

/-- Witness for C7 at a concrete suffix: the enum-membership error differs
from every rendering-error message. -/
theorem claim7_witness :
    "Variable 'lang' must be one of: Go, Rust"
      ≠ "Template rendering error: " ++ "Parse error: expected an identifier" :=
  claim7_enum_member_rendering.2.2 "Parse error: expected an identifier"
